import Mathlib

/-!
Verification of the Pictiv.Studio backend (src/main.py) against its
natural-language specification.

The embedding models the FastAPI handlers of `main.py` as pure Lean
functions over an explicit store state.  The document-store adapter
(module `database`, not part of the sources) is modelled from the spec:
its fault behaviour is injected through boolean flags on the store state,
so that theorems can quantify over "the read throws", "the store is
unavailable", and so on.
-/

set_option maxHeartbeats 1000000

namespace Pictiv

/-- A Python/JSON-like field value as stored in a schema-less document. -/
inductive Value where
  | str : String → Value
  | bool : Bool → Value
  | strList : List String → Value
  | null : Value
deriving DecidableEq

/-- A schema-less document: an ordered association list of named fields,
mirroring a Python dict built by pydantic's `.dict()`. -/
abbrev Doc : Type := List (String × Value)

/-- Python `d.get(k, default)` without the default: the value of the first
field named `k`, if any. -/
def docGet : Doc → String → Option Value
  | [], _ => none
  | kv :: tl, k => if kv.1 == k then some kv.2 else docGet tl k

/-- Python `d.pop(k, None)` as a functional update: the document without
any field named `k`. -/
def docPop : Doc → String → Doc
  | [], _ => []
  | kv :: tl, k => if kv.1 != k then kv :: docPop tl k else docPop tl k

/-- Python truthiness of a stored value (used by `if r.get("active", True)`). -/
def Value.truthy : Value → Bool
  | .str s => !s.isEmpty
  | .bool b => b
  | .strList l => !l.isEmpty
  | .null => false

/-- Pydantic model `ServiceItem` from `main.py`. -/
structure ServiceItem where
  key : String
  name : String
  description : String
  deliverables : List String
  duration : String
  price : Option String := none
  addons : List String := []
deriving DecidableEq

/-- Pydantic model `Announcement` from `main.py`. -/
structure Announcement where
  key : String
  title : String
  message : String
  tag : Option String := none
  active : Bool := true
deriving DecidableEq

/-- Pydantic model `BookingRequest` from `main.py`. -/
structure BookingRequest where
  full_name : String
  email : Option String := none
  phone : String
  service_key : String
  date : String
  time : String
  location : String
  notes : Option String := none
  contact_via_whatsapp : Bool := true
deriving DecidableEq

/-- Pydantic model `InquiryRequest` from `main.py`. -/
structure InquiryRequest where
  full_name : String
  email : Option String := none
  phone : Option String := none
  subject : String
  message : String
deriving DecidableEq

/-- An optional string as a document value (`None` becomes JSON null). -/
def optVal : Option String → Value
  | some s => .str s
  | none => .null

/-- `ServiceItem.dict()`: the document produced by pydantic, fields in
declaration order. -/
def ServiceItem.dict (s : ServiceItem) : Doc :=
  [("key", .str s.key), ("name", .str s.name), ("description", .str s.description),
   ("deliverables", .strList s.deliverables), ("duration", .str s.duration),
   ("price", optVal s.price), ("addons", .strList s.addons)]

/-- `Announcement.dict()`. -/
def Announcement.dict (a : Announcement) : Doc :=
  [("key", .str a.key), ("title", .str a.title), ("message", .str a.message),
   ("tag", optVal a.tag), ("active", .bool a.active)]

/-- `BookingRequest.dict()`. -/
def BookingRequest.dict (b : BookingRequest) : Doc :=
  [("full_name", .str b.full_name), ("email", optVal b.email), ("phone", .str b.phone),
   ("service_key", .str b.service_key), ("date", .str b.date), ("time", .str b.time),
   ("location", .str b.location), ("notes", optVal b.notes),
   ("contact_via_whatsapp", .bool b.contact_via_whatsapp)]

/-- `InquiryRequest.dict()`. -/
def InquiryRequest.dict (i : InquiryRequest) : Doc :=
  [("full_name", .str i.full_name), ("email", optVal i.email), ("phone", optVal i.phone),
   ("subject", .str i.subject), ("message", .str i.message)]

/-- `DEFAULT_SERVICES` from `main.py`, transcribed verbatim. -/
def DEFAULT_SERVICES : List ServiceItem :=
  [{ key := "wedding_day"
     name := "Wedding Day Package"
     description := "Full-day coverage capturing rituals, candid moments, and couple portraits."
     deliverables := ["600+ edited photographs", "Online gallery", "Highlight reel",
                      "Optional premium album"]
     duration := "8-12 hours"
     price := some "On request"
     addons := ["Extra photographer", "Same-day edit", "Drone coverage"] },
   { key := "pre_wedding"
     name := "Pre-Wedding Shoot"
     description := "A styled, cinematic session to celebrate your story."
     deliverables := ["60+ edited photographs", "2 outfit changes", "Location guidance"]
     duration := "3-4 hours"
     price := some "On request"
     addons := ["Short video reel", "Makeup artist"] },
   { key := "maternity"
     name := "Maternity Package"
     description := "Elegant, serene portraits celebrating motherhood."
     deliverables := ["40+ edited photographs", "Private online gallery", "Wardrobe guidance"]
     duration := "2-3 hours"
     price := some "On request"
     addons := ["Outdoor location", "Printed enlargements"] },
   { key := "portrait"
     name := "Makeup & Portrait Session"
     description := "Fine portraiture with a focus on expression and detail."
     deliverables := ["20+ edited photographs", "Retouched close-ups",
                      "Backdrop and lighting setup"]
     duration := "1-2 hours"
     price := some "On request"
     addons := ["Professional makeup", "Studio wardrobe"] },
   { key := "event"
     name := "Event Coverage"
     description := "Thoughtful documentation of family and social gatherings."
     deliverables := ["Edited photo set", "Highlights gallery"]
     duration := "As needed"
     price := some "Hourly / On request"
     addons := ["Additional photographer"] }]

/-- `DEFAULT_ANNOUNCEMENTS` from `main.py`, transcribed verbatim. -/
def DEFAULT_ANNOUNCEMENTS : List Announcement :=
  [{ key := "festive_offer"
     title := "Festive Offer"
     message := "Seasonal packages with complimentary reels on select bookings."
     tag := some "Offer"
     active := true },
   { key := "studio_update"
     title := "Studio Update"
     message := "Now accepting limited winter wedding bookings in Nashik."
     tag := some "Update"
     active := true }]

/-- The document-store state seen by one request.  `available` models
`db is not None`; the `…Fails` flags inject the fault behaviour of the
underlying storage (whether the corresponding adapter call throws), and
`errMsg` is the text of the exception it would raise.  `colls` maps a
collection name to its stored documents, `collNames` is what
`db.list_collection_names()` would report, `dbName` models `db.name`
(present iff `hasattr(db, 'name')`), and `nextId` feeds the
store-assigned identifiers. -/
structure Store where
  available : Bool
  colls : String → List Doc
  findFails : Bool
  getFails : Bool
  createFails : Bool
  listFails : Bool
  errMsg : String
  collNames : List String
  dbName : Option String
  nextId : Nat

/-- Modelled from the spec: `create_document(collection, record) -> id` of the
document-store adapter (module `database`, not among the sources).  Per spec
section 4.1 and 6 it inserts the record, which gains a store-assigned
identifier field, returns that identifier, and fails by propagating the
underlying storage error (leaving the collection untouched). -/
def create_document (coll : String) (d : Doc) (s : Store) :
    Except (String × Store) (String × Store) :=
  if s.createFails then .error (s.errMsg, s)
  else
    let newId := toString s.nextId
    .ok (newId,
      { s with
        colls := fun c => if c = coll then s.colls c ++ [d ++ [("_id", Value.str newId)]]
                          else s.colls c
        nextId := s.nextId + 1 })

/-- Modelled from the spec: `get_documents(collection_name)` of the
document-store adapter (module `database`, not among the sources).  Per spec
sections 4.1 and 7 it returns the stored records of the collection and fails
by propagating the underlying storage error; when the store handle is
unavailable the call fails as well (reads then degrade to fallback data in
the API layer). -/
def get_documents (coll : String) (s : Store) : Except String (List Doc) :=
  if s.available = false then .error "database unavailable"
  else if s.getFails then .error s.errMsg
  else .ok (s.colls coll)

/-- The Mongo projection of `find` restricted to the key field: the spec says
seeding queries the collection "projecting only the key field"; the `_id`
field is kept as Mongo always returns it. -/
def projKey (d : Doc) : Doc :=
  d.filter (fun kv => kv.1 == "key" || kv.1 == "_id")

/-- The direct collection query used by seeding, from `main.py` line 151 and
163: it lists the existing documents under the key projection, or throws the
storage error. -/
def collFind (coll : String) (s : Store) : Except String (List Doc) :=
  if s.findFails then .error s.errMsg
  else .ok ((s.colls coll).map projKey)

/-- The seeding loop body: one `create_document` call per catalog entry, in
order; a storage failure aborts the loop, keeping the documents already
inserted (Python mutates the store as it goes). -/
def seedLoop (coll : String) : List Doc → Store → Except (String × Store) Store
  | [], s => .ok s
  | d :: ds, s =>
    match create_document coll d s with
    | .error e => .error e
    | .ok (_, s1) => seedLoop coll ds s1

/-- The `try:` body shared by `ensure_services_seeded` and
`ensure_announcements_seeded`: query the collection, and seed the whole
catalog only when no record exists. -/
def seedBody (catalog : List Doc) (coll : String) (s : Store) :
    Except (String × Store) Store :=
  match collFind coll s with
  | .error e => .error (e, s)
  | .ok existing => if existing.isEmpty then seedLoop coll catalog s else .ok s

/-- The common shape of the two seeding helpers of `main.py`: return
immediately when `db is None`, otherwise run the body and swallow any
exception (`except Exception: pass`), keeping whatever state the body had
reached.  A `.error` result would model an exception escaping to the
caller; the catch-all makes that impossible. -/
def ensure_seeded (catalog : List Doc) (coll : String) (s : Store) :
    Except (String × Store) Store :=
  if s.available = false then .ok s
  else
    match seedBody catalog coll s with
    | .ok s1 => .ok s1
    | .error (_, s1) => .ok s1

/-- `ensure_services_seeded` from `main.py` lines 147-156. -/
def ensure_services_seeded (s : Store) : Except (String × Store) Store :=
  ensure_seeded (DEFAULT_SERVICES.map ServiceItem.dict) "service" s

/-- `ensure_announcements_seeded` from `main.py` lines 159-168. -/
def ensure_announcements_seeded (s : Store) : Except (String × Store) Store :=
  ensure_seeded (DEFAULT_ANNOUNCEMENTS.map Announcement.dict) "announcement" s

/-- The JSON object returned by the two catalog listing endpoints.  A
successful read carries `fallback := false` and `error := none`, modelling
the absence of those keys in the Python dict. -/
structure ListResponse where
  items : List Doc
  fallback : Bool
  error : Option String
deriving DecidableEq

/-- `GET /api/services` (`list_services`, `main.py` lines 179-190).  The
`.error` case models an exception escaping the handler; only a failure of
the seeding call (outside the `try:`) could produce it. -/
def list_services (s : Store) : Except (String × Store) (ListResponse × Store) :=
  match ensure_services_seeded s with
  | .error e => .error e
  | .ok s1 =>
    match get_documents "service" s1 with
    | .ok records =>
      .ok ({ items := records.map (fun r => docPop r "_id"), fallback := false,
             error := none }, s1)
    | .error e =>
      .ok ({ items := DEFAULT_SERVICES.map ServiceItem.dict, fallback := true,
             error := some (e.take 120) }, s1)

/-- `GET /api/announcements` (`list_announcements`, `main.py` lines 193-205):
like the services listing but keeping only records whose `active` field
(defaulting to `True` when absent) is truthy. -/
def list_announcements (s : Store) : Except (String × Store) (ListResponse × Store) :=
  match ensure_announcements_seeded s with
  | .error e => .error e
  | .ok s1 =>
    match get_documents "announcement" s1 with
    | .ok records =>
      .ok ({ items := records.filterMap (fun r =>
               if Value.truthy ((docGet r "active").getD (Value.bool true)) then
                 some (docPop r "_id")
               else none),
             fallback := false, error := none }, s1)
    | .error e =>
      .ok ({ items := DEFAULT_ANNOUNCEMENTS.map Announcement.dict, fallback := true,
             error := some (e.take 120) }, s1)

/-- The JSON object returned by `POST /api/bookings` on success. -/
structure BookingResponse where
  id : String
  status : String
  whatsapp : String
deriving DecidableEq

/-- The JSON object returned by `POST /api/inquiries` on success. -/
structure InquiryResponse where
  id : String
  status : String
deriving DecidableEq

/-- Python `booking.notes or '-'`: the notes, or a hyphen when they are
`None` or empty (both are falsy). -/
def pyOrDash : Option String → String
  | none => "-"
  | some s => if s.isEmpty then "-" else s

/-- The WhatsApp message template of `create_booking` (`main.py` lines
214-222), with the pre-encoded `%0A` newlines exactly as in the f-string. -/
def bookingMsg (b : BookingRequest) : String :=
  "New Booking Request - Pictiv.Studio%0A" ++
  "Name: " ++ b.full_name ++ "%0A" ++
  "Phone: " ++ b.phone ++ "%0A" ++
  "Service: " ++ b.service_key ++ "%0A" ++
  "Date: " ++ b.date ++ " " ++ b.time ++ "%0A" ++
  "Location: " ++ b.location ++ "%0A" ++
  "Notes: " ++ pyOrDash b.notes

/-- Python `s.replace(c, '')` for a one-character pattern: every occurrence
of the character is removed, not only a leading one. -/
def pyRemoveAll (c : Char) (s : String) : String :=
  String.mk (s.data.filter (fun a => a ≠ c))

/-- `POST /api/bookings` (`create_booking`, `main.py` lines 208-227).  The
`env` argument is `os.getenv("STUDIO_WHATSAPP")`; an `.error (code, detail)`
result models `HTTPException(status_code=code, detail=detail)`.  The second
component is the store state after the request. -/
def create_booking (env : Option String) (b : BookingRequest) (s : Store) :
    Except (Nat × String) BookingResponse × Store :=
  if s.available = false then (.error (503, "Database not available"), s)
  else
    match create_document "booking" b.dict s with
    | .error (e, s1) => (.error (500, e), s1)
    | .ok (bookingId, s1) =>
      let msg := bookingMsg b
      let whatsappNumber := env.getD "+919999999999"
      let waLink := "https://wa.me/" ++ pyRemoveAll '+' whatsappNumber ++ "?text=" ++ msg
      (.ok { id := bookingId, status := "received", whatsapp := waLink }, s1)

/-- `POST /api/inquiries` (`create_inquiry`, `main.py` lines 230-238). -/
def create_inquiry (i : InquiryRequest) (s : Store) :
    Except (Nat × String) InquiryResponse × Store :=
  if s.available = false then (.error (503, "Database not available"), s)
  else
    match create_document "inquiry" i.dict s with
    | .error (e, s1) => (.error (500, e), s1)
    | .ok (inquiryId, s1) => (.ok { id := inquiryId, status := "received" }, s1)

/-- The JSON object returned by `GET /test`.  The url/name fields start out
as Python `None` and are unconditionally overwritten with strings before
returning. -/
structure TestResponse where
  backend : String
  database : String
  database_url : Option String
  database_name : Option String
  connection_status : String
  collections : List String
deriving DecidableEq

/-- Python truthiness of an `os.getenv` result: set and non-empty. -/
def envTruthy : Option String → Bool
  | some v => !v.isEmpty
  | none => false

/-- `GET /test` (`test_database`, `main.py` lines 241-272).  The only
fallible call inside the handler, `db.list_collection_names()`, is guarded
by its own `try/except`, so the handler is total. -/
def test_database (s : Store) (dbUrl dbName : Option String) : TestResponse :=
  let r : TestResponse :=
    { backend := "✅ Running", database := "❌ Not Available", database_url := none,
      database_name := none, connection_status := "Not Connected", collections := [] }
  let r :=
    if s.available then
      let r := { r with
        database := "✅ Available"
        database_url := some "✅ Configured"
        database_name := some (match s.dbName with
                               | some n => n
                               | none => "✅ Connected")
        connection_status := "Connected" }
      if s.listFails then { r with database := "⚠️  Connected but Error: " ++ s.errMsg.take 50 }
      else { r with
        collections := s.collNames.take 10
        database := "✅ Connected & Working" }
    else { r with database := "⚠️  Available but not initialized" }
  { r with
    database_url := some (if envTruthy dbUrl then "✅ Set" else "❌ Not Set")
    database_name := some (if envTruthy dbName then "✅ Set" else "❌ Not Set") }

/-- The spec's reading of the phone-number normalisation, for comparison with
the code: only a leading `+` is stripped, everything else is preserved. -/
def stripLeadingPlus (s : String) : String :=
  match s.data with
  | '+' :: rest => String.mk rest
  | _ => s

/-- A healthy store with no documents: `db` connected, no faults injected. -/
def emptyStore : Store :=
  { available := true, colls := fun _ => [], findFails := false, getFails := false,
    createFails := false, listFails := false, errMsg := "boom", collNames := [],
    dbName := none, nextId := 0 }

/-- A store whose handle is unavailable (`db is None`). -/
def offStore : Store :=
  { emptyStore with available := false }

/-- The booking of spec section 8: `wedding_day` on 2024-12-25 in Nashik. -/
def weddingBooking : BookingRequest :=
  { full_name := "Asha", phone := "9876543210", service_key := "wedding_day",
    date := "2024-12-25", time := "10:00", location := "Nashik" }

/-- A sample inquiry payload. -/
def sampleInquiry : InquiryRequest :=
  { full_name := "Ravi", subject := "Availability", message := "Are winter dates open?" }

/-- A configured studio number with a second, non-leading `+`. -/
def plusyNumber : String := "+91+9999999999"

/-- A stored announcement whose `active` field is `false`. -/
def inactiveDoc : Doc := [("key", Value.str "old"), ("active", Value.bool false)]

/-- A stored announcement with no `active` field at all. -/
def noActiveDoc : Doc := [("key", Value.str "plain")]

/-- A store holding one inactive announcement. -/
def annStoreInactive : Store :=
  { emptyStore with colls := fun c => if c = "announcement" then [inactiveDoc] else [] }

/-- A store holding one announcement that lacks the `active` field. -/
def annStoreNoActive : Store :=
  { emptyStore with colls := fun c => if c = "announcement" then [noActiveDoc] else [] }

/-- Decidable form of "no returned item has an `active` field set to false". -/
def noInactiveItems (items : List Doc) : Bool :=
  items.all (fun item => decide (docGet item "active" ≠ some (Value.bool false)))

/-- The store configuration (availability, fault flags, error text) that a
request leaves untouched: only collection contents and the id counter may
change. -/
def sameCfg (a b : Store) : Prop :=
  a.available = b.available ∧ a.findFails = b.findFails ∧ a.getFails = b.getFails ∧
    a.createFails = b.createFails ∧ a.listFails = b.listFails ∧ a.errMsg = b.errMsg

theorem sameCfg_refl (s : Store) : sameCfg s s :=
  ⟨rfl, rfl, rfl, rfl, rfl, rfl⟩

theorem sameCfg_trans {a b c : Store} (h1 : sameCfg a b) (h2 : sameCfg b c) : sameCfg a c :=
  ⟨h1.1.trans h2.1, h1.2.1.trans h2.2.1, h1.2.2.1.trans h2.2.2.1,
   h1.2.2.2.1.trans h2.2.2.2.1, h1.2.2.2.2.1.trans h2.2.2.2.2.1,
   h1.2.2.2.2.2.trans h2.2.2.2.2.2⟩

theorem create_document_ok (coll : String) (d : Doc) (s : Store)
    (h : s.createFails = false) :
    ∃ s1, create_document coll d s = .ok (toString s.nextId, s1) ∧ sameCfg s1 s ∧
      s1.colls coll = s.colls coll ++ [d ++ [("_id", Value.str (toString s.nextId))]] ∧
      ∀ c, c ≠ coll → s1.colls c = s.colls c := by
  refine ⟨{ s with
      colls := fun c => if c = coll then
                 s.colls c ++ [d ++ [("_id", Value.str (toString s.nextId))]]
               else s.colls c
      nextId := s.nextId + 1 }, ?_, ?_, ?_, ?_⟩
  · simp [create_document, h]
  · exact ⟨rfl, rfl, rfl, rfl, rfl, rfl⟩
  · simp
  · intro c hc
    simp [hc]

/-- The store reached by the seeding `try:` body, whether or not it raised. -/
def excStore : Except (String × Store) Store → Store
  | .ok s => s
  | .error (_, s) => s

theorem seedLoop_cfg (coll : String) (ds : List Doc) (s : Store) :
    sameCfg (excStore (seedLoop coll ds s)) s := by
  induction ds generalizing s with
  | nil => exact sameCfg_refl s
  | cons d tl ih =>
    by_cases hc : s.createFails = true
    · simp [seedLoop, create_document, hc, excStore, sameCfg_refl]
    · obtain ⟨s1, hcd, hcfg, -, -⟩ :=
        create_document_ok coll d s (Bool.not_eq_true _ ▸ hc)
      simpa [seedLoop, hcd] using sameCfg_trans (ih s1) hcfg

theorem seedLoop_ok (coll : String) (ds : List Doc) (s : Store)
    (h : s.createFails = false) :
    ∃ s1, seedLoop coll ds s = .ok s1 ∧ sameCfg s1 s ∧
      (s1.colls coll).length = (s.colls coll).length + ds.length ∧
      ∀ c, c ≠ coll → s1.colls c = s.colls c := by
  induction ds generalizing s with
  | nil => exact ⟨s, rfl, sameCfg_refl s, by simp, fun _ _ => rfl⟩
  | cons d tl ih =>
    obtain ⟨s1, hcd, hcfg, hcoll, hother⟩ := create_document_ok coll d s h
    obtain ⟨s2, hloop, hcfg2, hlen2, hoth2⟩ := ih s1 (hcfg.2.2.2.1.trans h)
    refine ⟨s2, ?_, sameCfg_trans hcfg2 hcfg, ?_, ?_⟩
    · simp [seedLoop, hcd, hloop]
    · rw [hlen2, hcoll]
      simp [Nat.add_assoc, Nat.add_comm 1 tl.length]
    · intro c hc
      rw [hoth2 c hc, hother c hc]

theorem seedBody_cfg (catalog : List Doc) (coll : String) (s : Store) :
    sameCfg (excStore (seedBody catalog coll s)) s := by
  by_cases hf : s.findFails = true
  · simp [seedBody, collFind, hf, excStore, sameCfg_refl]
  · by_cases he : ((s.colls coll).map projKey).isEmpty
    · simpa [seedBody, collFind, Bool.not_eq_true _ ▸ hf, he] using seedLoop_cfg coll catalog s
    · simp [seedBody, collFind, Bool.not_eq_true _ ▸ hf, he, excStore, sameCfg_refl]

theorem ensure_seeded_eq (catalog : List Doc) (coll : String) (s : Store)
    (h : s.available = true) :
    ensure_seeded catalog coll s = .ok (excStore (seedBody catalog coll s)) := by
  cases hsb : seedBody catalog coll s with
  | ok s1 => simp [ensure_seeded, h, hsb, excStore]
  | error e => cases e with
    | mk msg s1 => simp [ensure_seeded, h, hsb, excStore]

theorem ensure_seeded_ok (catalog : List Doc) (coll : String) (s : Store) :
    ∃ s1, ensure_seeded catalog coll s = .ok s1 ∧ sameCfg s1 s := by
  cases hav : s.available with
  | false => exact ⟨s, by simp [ensure_seeded, hav], sameCfg_refl s⟩
  | true => exact ⟨_, ensure_seeded_eq catalog coll s hav, seedBody_cfg catalog coll s⟩

theorem ensure_seeded_of_ne (catalog : List Doc) (coll : String) (s : Store)
    (h : s.colls coll ≠ []) :
    ensure_seeded catalog coll s = .ok s := by
  cases hav : s.available with
  | false => simp [ensure_seeded, hav]
  | true =>
    rw [ensure_seeded_eq catalog coll s hav]
    by_cases hf : s.findFails = true
    · simp [seedBody, collFind, hf, excStore]
    · simp [seedBody, collFind, Bool.not_eq_true _ ▸ hf, List.isEmpty_iff, h, excStore]

theorem ensure_seeded_of_empty (catalog : List Doc) (coll : String) (s : Store)
    (hav : s.available = true) (hf : s.findFails = false) (hc : s.createFails = false)
    (he : s.colls coll = []) :
    ∃ s1, ensure_seeded catalog coll s = .ok s1 ∧ sameCfg s1 s ∧
      (s1.colls coll).length = catalog.length ∧
      ∀ c, c ≠ coll → s1.colls c = s.colls c := by
  obtain ⟨s1, hloop, hcfg, hlen, hoth⟩ := seedLoop_ok coll catalog s hc
  refine ⟨s1, ?_, hcfg, by rw [hlen, he]; simp, hoth⟩
  rw [ensure_seeded_eq catalog coll s hav]
  simp [seedBody, collFind, hf, he, hloop, excStore]

theorem get_documents_error (coll : String) (s : Store)
    (h : s.available = false ∨ s.getFails = true) :
    ∃ m, get_documents coll s = .error m := by
  cases hav : s.available with
  | false => exact ⟨"database unavailable", by simp [get_documents, hav]⟩
  | true =>
    have hg : s.getFails = true := by
      rcases h with h | h
      · rw [hav] at h
        exact absurd h (by simp)
      · exact h
    exact ⟨s.errMsg, by simp [get_documents, hav, hg]⟩

theorem docGet_docPop (r : Doc) (k k' : String) (hne : k ≠ k') :
    docGet (docPop r k') k = docGet r k := by
  induction r with
  | nil => rfl
  | cons kv tl ih =>
    by_cases h1 : (kv.1 == k') = true
    · have hk : (kv.1 == k) = false := by
        refine beq_eq_false_iff_ne.mpr ?_
        intro hh
        exact hne (hh.symm.trans (eq_of_beq h1))
      simp [docPop, docGet, eq_of_beq h1, hk, ih, Ne.symm hne]
    · have hne1 : ¬ kv.1 = k' := fun hh => h1 (by simp [hh])
      by_cases h2 : (kv.1 == k) = true
      · simp [docPop, docGet, hne1, h2]
      · simp [docPop, docGet, hne1, h2, ih]

/-- C1: for every catalog read, if the document store is unavailable or the
read throws, the response contains exactly the built-in default items for
that catalog together with `fallback: true`; for announcements the fallback
items are the built-in announcements filtered to active ones. -/
theorem catalog_read_fallback (s : Store)
    (h : s.available = false ∨ s.getFails = true) :
    (∃ s1 e, list_services s =
      .ok ({ items := DEFAULT_SERVICES.map ServiceItem.dict, fallback := true,
             error := some e }, s1)) ∧
    (∃ s1 e, list_announcements s =
      .ok ({ items := (DEFAULT_ANNOUNCEMENTS.filter (fun a => a.active)).map Announcement.dict,
             fallback := true, error := some e }, s1)) := by
  have hfilter :
      (DEFAULT_ANNOUNCEMENTS.filter (fun a => a.active)).map Announcement.dict =
        DEFAULT_ANNOUNCEMENTS.map Announcement.dict := rfl
  constructor
  · obtain ⟨s1, hens, hcfg⟩ :=
      ensure_seeded_ok (DEFAULT_SERVICES.map ServiceItem.dict) "service" s
    obtain ⟨m, hm⟩ := get_documents_error "service" s1 (by
      rcases h with h | h
      · exact Or.inl (hcfg.1.trans h)
      · exact Or.inr (hcfg.2.2.1.trans h))
    exact ⟨s1, m.take 120, by simp [list_services, ensure_services_seeded, hens, hm]⟩
  · obtain ⟨s1, hens, hcfg⟩ :=
      ensure_seeded_ok (DEFAULT_ANNOUNCEMENTS.map Announcement.dict) "announcement" s
    obtain ⟨m, hm⟩ := get_documents_error "announcement" s1 (by
      rcases h with h | h
      · exact Or.inl (hcfg.1.trans h)
      · exact Or.inr (hcfg.2.2.1.trans h))
    refine ⟨s1, m.take 120, ?_⟩
    rw [hfilter]
    simp [list_announcements, ensure_announcements_seeded, hens, hm]

theorem catalog_read_fallback_witness :
    offStore.available = false ∧
      ((∃ s1 e, list_services offStore =
        .ok ({ items := DEFAULT_SERVICES.map ServiceItem.dict, fallback := true,
               error := some e }, s1)) ∧
       (∃ s1 e, list_announcements offStore =
        .ok ({ items := (DEFAULT_ANNOUNCEMENTS.filter (fun a => a.active)).map Announcement.dict,
               fallback := true, error := some e }, s1))) :=
  ⟨rfl, catalog_read_fallback offStore (Or.inl rfl)⟩

/-- C2: seeding is idempotent: from an empty service collection with the
store available and healthy, running the list-services operation twice
leaves exactly `DEFAULT_SERVICES.length` stored service records, and the
second call inserts nothing (the stored collection is unchanged). -/
theorem seeding_idempotent (s : Store) (hav : s.available = true)
    (hf : s.findFails = false) (hc : s.createFails = false)
    (he : s.colls "service" = []) :
    ∃ r1 s1 r2 s2, list_services s = .ok (r1, s1) ∧ list_services s1 = .ok (r2, s2) ∧
      (s1.colls "service").length = DEFAULT_SERVICES.length ∧
      s2.colls "service" = s1.colls "service" := by
  obtain ⟨s1, hens, hcfg, hlen, -⟩ :=
    ensure_seeded_of_empty (DEFAULT_SERVICES.map ServiceItem.dict) "service" s hav hf hc he
  have hlen5 : (s1.colls "service").length = DEFAULT_SERVICES.length := by
    simpa using hlen
  have hne : s1.colls "service" ≠ [] := by
    intro h0
    rw [h0] at hlen5
    simp [DEFAULT_SERVICES] at hlen5
  have hens2 : ensure_seeded (DEFAULT_SERVICES.map ServiceItem.dict) "service" s1 = .ok s1 :=
    ensure_seeded_of_ne _ _ s1 hne
  cases hg : get_documents "service" s1 with
  | ok records =>
    refine ⟨{ items := records.map (fun r => docPop r "_id"), fallback := false,
              error := none }, s1,
            { items := records.map (fun r => docPop r "_id"), fallback := false,
              error := none }, s1, ?_, ?_, hlen5, rfl⟩
    · simp [list_services, ensure_services_seeded, hens, hg]
    · simp [list_services, ensure_services_seeded, hens2, hg]
  | error e =>
    refine ⟨{ items := DEFAULT_SERVICES.map ServiceItem.dict, fallback := true,
              error := some (e.take 120) }, s1,
            { items := DEFAULT_SERVICES.map ServiceItem.dict, fallback := true,
              error := some (e.take 120) }, s1, ?_, ?_, hlen5, rfl⟩
    · simp [list_services, ensure_services_seeded, hens, hg]
    · simp [list_services, ensure_services_seeded, hens2, hg]

theorem seeding_idempotent_witness :
    emptyStore.available = true ∧ emptyStore.colls "service" = [] ∧
      (∃ r1 s1 r2 s2, list_services emptyStore = .ok (r1, s1) ∧
        list_services s1 = .ok (r2, s2) ∧
        (s1.colls "service").length = DEFAULT_SERVICES.length ∧
        s2.colls "service" = s1.colls "service") :=
  ⟨rfl, rfl, seeding_idempotent emptyStore rfl rfl rfl rfl⟩

/-- C7: for every booking or inquiry payload, when the store handle is
unavailable the create operation fails with a 503 service-unavailable error
and the store state is unchanged (no record persisted). -/
theorem create_unavailable_503 (env : Option String) (b : BookingRequest)
    (i : InquiryRequest) (s : Store) (h : s.available = false) :
    create_booking env b s = (.error (503, "Database not available"), s) ∧
    create_inquiry i s = (.error (503, "Database not available"), s) :=
  ⟨by simp [create_booking, h], by simp [create_inquiry, h]⟩

theorem create_unavailable_503_witness :
    offStore.available = false ∧
      (create_booking none weddingBooking offStore =
        (.error (503, "Database not available"), offStore) ∧
       create_inquiry sampleInquiry offStore =
        (.error (503, "Database not available"), offStore)) :=
  ⟨rfl, create_unavailable_503 none weddingBooking sampleInquiry offStore rfl⟩

/-- C8: the seeding operations never raise for any store state: they are a
no-op when the store handle is unavailable, and any failure while querying
or inserting is swallowed, so the read endpoints always return a response
(never an escaped exception). -/
theorem seeding_never_raises (s : Store) :
    (∃ s1, ensure_services_seeded s = .ok s1) ∧
    (∃ s1, ensure_announcements_seeded s = .ok s1) ∧
    (s.available = false →
      ensure_services_seeded s = .ok s ∧ ensure_announcements_seeded s = .ok s) ∧
    (∃ r, list_services s = .ok r) ∧ (∃ r, list_announcements s = .ok r) := by
  obtain ⟨s1, h1, -⟩ := ensure_seeded_ok (DEFAULT_SERVICES.map ServiceItem.dict) "service" s
  obtain ⟨s2, h2, -⟩ :=
    ensure_seeded_ok (DEFAULT_ANNOUNCEMENTS.map Announcement.dict) "announcement" s
  refine ⟨⟨s1, h1⟩, ⟨s2, h2⟩, ?_, ?_, ?_⟩
  · intro hav
    exact ⟨by simp [ensure_services_seeded, ensure_seeded, hav],
           by simp [ensure_announcements_seeded, ensure_seeded, hav]⟩
  · cases hg : get_documents "service" s1 with
    | ok records =>
      exact ⟨({ items := records.map (fun r => docPop r "_id"), fallback := false,
                error := none }, s1),
             by simp [list_services, ensure_services_seeded, h1, hg]⟩
    | error e =>
      exact ⟨({ items := DEFAULT_SERVICES.map ServiceItem.dict, fallback := true,
                error := some (e.take 120) }, s1),
             by simp [list_services, ensure_services_seeded, h1, hg]⟩
  · cases hg : get_documents "announcement" s2 with
    | ok records =>
      exact ⟨({ items := records.filterMap (fun r =>
                  if Value.truthy ((docGet r "active").getD (Value.bool true)) then
                    some (docPop r "_id")
                  else none),
                fallback := false, error := none }, s2),
             by simp [list_announcements, ensure_announcements_seeded, h2, hg]⟩
    | error e =>
      exact ⟨({ items := DEFAULT_ANNOUNCEMENTS.map Announcement.dict, fallback := true,
                error := some (e.take 120) }, s2),
             by simp [list_announcements, ensure_announcements_seeded, h2, hg]⟩

theorem seeding_never_raises_witness :
    ensure_services_seeded offStore = .ok offStore ∧
      ensure_announcements_seeded offStore = .ok offStore :=
  (seeding_never_raises offStore).2.2.1 rfl

/-- C9: for every store state and environment, the diagnostics operation
returns a structured status object (it is a total function whose `backend`
field always reports running), and its collections list has length at
most 10. -/
theorem diagnostics_total_and_capped (s : Store) (dbUrl dbName : Option String) :
    (test_database s dbUrl dbName).backend = "✅ Running" ∧
    (test_database s dbUrl dbName).collections.length ≤ 10 := by
  constructor
  · cases hav : s.available <;> cases hl : s.listFails <;> simp [test_database, hav, hl]
  · cases hav : s.available <;> cases hl : s.listFails <;>
      simp [test_database, hav, hl, List.length_take]

/-- C3: a valid booking for `wedding_day`, phone 9876543210, 2024-12-25
10:00 in Nashik, with the default studio number, yields a whatsapp link
beginning with `https://wa.me/919999999999?text=` (no plus sign) and
containing the literal substring `Service: wedding_day`. -/
theorem booking_wedding_day_link (s : Store) (hav : s.available = true)
    (hc : s.createFails = false) :
    ∃ resp, (create_booking none weddingBooking s).1 = .ok resp ∧
      (∃ rest, resp.whatsapp = "https://wa.me/919999999999?text=" ++ rest) ∧
      (∃ p q, resp.whatsapp = p ++ "Service: wedding_day" ++ q) := by
  obtain ⟨s1, hcd, -, -, -⟩ := create_document_ok "booking" weddingBooking.dict s hc
  refine ⟨{ id := toString s.nextId, status := "received",
            whatsapp := "https://wa.me/" ++
              pyRemoveAll '+' ((none : Option String).getD "+919999999999") ++ "?text=" ++
              bookingMsg weddingBooking }, ?_, ?_, ?_⟩
  · simp [create_booking, hav, hcd]
  · exact ⟨"New Booking Request - Pictiv.Studio%0AName: Asha%0APhone: 9876543210%0AService: wedding_day%0ADate: 2024-12-25 10:00%0ALocation: Nashik%0ANotes: -",
           rfl⟩
  · exact ⟨"https://wa.me/919999999999?text=New Booking Request - Pictiv.Studio%0AName: Asha%0APhone: 9876543210%0A",
           "%0ADate: 2024-12-25 10:00%0ALocation: Nashik%0ANotes: -", rfl⟩

theorem booking_wedding_day_link_witness :
    emptyStore.available = true ∧
      (∃ resp, (create_booking none weddingBooking emptyStore).1 = .ok resp ∧
        (∃ rest, resp.whatsapp = "https://wa.me/919999999999?text=" ++ rest) ∧
        (∃ p q, resp.whatsapp = p ++ "Service: wedding_day" ++ q)) :=
  ⟨rfl, booking_wedding_day_link emptyStore rfl rfl⟩

/-- C4: for every successfully created booking, the text component of the
returned whatsapp link is exactly the fixed template over the booking's
name, phone, service_key, date+time, location and notes (a hyphen when the
notes are absent), with the fields separated by the pre-encoded newline
`%0A`; no other encoding is applied to the interpolated fields. -/
theorem booking_text_template (env : Option String) (b : BookingRequest) (s : Store)
    (resp : BookingResponse) (h : (create_booking env b s).1 = .ok resp) :
    resp.whatsapp =
      "https://wa.me/" ++ pyRemoveAll '+' (env.getD "+919999999999") ++ "?text=" ++
        ("New Booking Request - Pictiv.Studio%0A" ++
         "Name: " ++ b.full_name ++ "%0A" ++
         "Phone: " ++ b.phone ++ "%0A" ++
         "Service: " ++ b.service_key ++ "%0A" ++
         "Date: " ++ b.date ++ " " ++ b.time ++ "%0A" ++
         "Location: " ++ b.location ++ "%0A" ++
         "Notes: " ++ pyOrDash b.notes) := by
  cases hav : s.available with
  | false => simp [create_booking, hav] at h
  | true =>
    by_cases hcf : s.createFails = true
    · simp [create_booking, create_document, hav, hcf] at h
    · obtain ⟨s1, hcd, -, -, -⟩ :=
        create_document_ok "booking" b.dict s (Bool.not_eq_true _ ▸ hcf)
      simp [create_booking, hav, hcd] at h
      rw [← h]
      rfl

theorem booking_text_template_witness :
    ("https://wa.me/919999999999?text=New Booking Request - Pictiv.Studio%0AName: Asha%0APhone: 9876543210%0AService: wedding_day%0ADate: 2024-12-25 10:00%0ALocation: Nashik%0ANotes: -" : String) =
      "https://wa.me/" ++ pyRemoveAll '+' (Option.getD none "+919999999999") ++ "?text=" ++
        ("New Booking Request - Pictiv.Studio%0A" ++
         "Name: " ++ "Asha" ++ "%0A" ++
         "Phone: " ++ "9876543210" ++ "%0A" ++
         "Service: " ++ "wedding_day" ++ "%0A" ++
         "Date: " ++ "2024-12-25" ++ " " ++ "10:00" ++ "%0A" ++
         "Location: " ++ "Nashik" ++ "%0A" ++
         "Notes: " ++ pyOrDash none) :=
  booking_text_template none weddingBooking emptyStore _ rfl

/-- C5 counterexample: with the studio number configured as
`+91+9999999999`, the embedded number is `919999999999` (every `+`
removed), not `91+9999999999` as the claim's "only the leading plus is
stripped, other characters preserved" would give. -/
theorem wa_number_replace_counterexample :
    (create_booking (some plusyNumber) weddingBooking emptyStore).1 =
      .ok { id := "0", status := "received",
            whatsapp := "https://wa.me/919999999999?text=New Booking Request - Pictiv.Studio%0AName: Asha%0APhone: 9876543210%0AService: wedding_day%0ADate: 2024-12-25 10:00%0ALocation: Nashik%0ANotes: -" } ∧
    ¬ ("https://wa.me/919999999999?text=New Booking Request - Pictiv.Studio%0AName: Asha%0APhone: 9876543210%0AService: wedding_day%0ADate: 2024-12-25 10:00%0ALocation: Nashik%0ANotes: -" : String) =
      "https://wa.me/" ++ stripLeadingPlus plusyNumber ++ "?text=" ++ bookingMsg weddingBooking :=
  ⟨rfl, by decide⟩

/-- C5 (amended): for every configured studio number, the number embedded
in the returned `https://wa.me/<digits>?text=...` URL is the configured
number with every `+` character removed (Python `replace('+','')`), not
only a leading one. -/
theorem wa_number_all_plus_removed (env : Option String) (b : BookingRequest) (s : Store)
    (resp : BookingResponse) (h : (create_booking env b s).1 = .ok resp) :
    ∃ t, resp.whatsapp =
      "https://wa.me/" ++
        String.mk ((env.getD "+919999999999").data.filter (fun c => c ≠ '+')) ++
        "?text=" ++ t := by
  cases hav : s.available with
  | false => simp [create_booking, hav] at h
  | true =>
    by_cases hcf : s.createFails = true
    · simp [create_booking, create_document, hav, hcf] at h
    · obtain ⟨s1, hcd, -, -, -⟩ :=
        create_document_ok "booking" b.dict s (Bool.not_eq_true _ ▸ hcf)
      simp [create_booking, hav, hcd] at h
      exact ⟨bookingMsg b, by rw [← h]; rfl⟩

theorem wa_number_all_plus_removed_witness :
    ∃ t, ("https://wa.me/919999999999?text=New Booking Request - Pictiv.Studio%0AName: Asha%0APhone: 9876543210%0AService: wedding_day%0ADate: 2024-12-25 10:00%0ALocation: Nashik%0ANotes: -" : String) =
      "https://wa.me/" ++ String.mk (plusyNumber.data.filter (fun c => c ≠ '+')) ++
        "?text=" ++ t :=
  wa_number_all_plus_removed (some plusyNumber) weddingBooking emptyStore _ rfl

/-- C6: the list-announcements operation never returns an item whose
`active` field is `false` — neither from stored records (those are filtered
out) nor in the fallback response. -/
theorem announcements_never_inactive (s : Store) (resp : ListResponse) (s1 : Store)
    (h : list_announcements s = .ok (resp, s1)) :
    noInactiveItems resp.items = true := by
  obtain ⟨s2, hens, -⟩ :=
    ensure_seeded_ok (DEFAULT_ANNOUNCEMENTS.map Announcement.dict) "announcement" s
  cases hg : get_documents "announcement" s2 with
  | error e =>
    simp [list_announcements, ensure_announcements_seeded, hens, hg] at h
    rw [← h.1]
    rfl
  | ok records =>
    simp [list_announcements, ensure_announcements_seeded, hens, hg] at h
    rw [← h.1]
    rw [noInactiveItems, List.all_eq_true]
    intro item hmem
    obtain ⟨r, hr, hfr⟩ := List.mem_filterMap.mp hmem
    rw [decide_eq_true_eq]
    split at hfr
    case isTrue hcond =>
      cases hfr
      rw [docGet_docPop r "active" "_id" (by decide)]
      intro heq
      rw [heq] at hcond
      simp [Value.truthy] at hcond
    case isFalse hcond => cases hfr

theorem announcements_never_inactive_witness :
    noInactiveItems ({ items := [], fallback := false, error := none } : ListResponse).items
      = true :=
  announcements_never_inactive annStoreInactive _ annStoreInactive rfl

/-- C10 (implicit): a stored announcement record with no `active` field at
all is treated as active: it is included (with its storage id stripped) in
the list-announcements response. -/
theorem missing_active_included (s : Store) (r : Doc)
    (hav : s.available = true) (hg : s.getFails = false)
    (hr : r ∈ s.colls "announcement") (hactive : docGet r "active" = none) :
    ∃ resp s1, list_announcements s = .ok (resp, s1) ∧ resp.fallback = false ∧
      docPop r "_id" ∈ resp.items := by
  have hne : s.colls "announcement" ≠ [] := fun h0 => by
    rw [h0] at hr
    exact absurd hr (List.not_mem_nil r)
  have hens :
      ensure_seeded (DEFAULT_ANNOUNCEMENTS.map Announcement.dict) "announcement" s = .ok s :=
    ensure_seeded_of_ne _ _ s hne
  have hget : get_documents "announcement" s = .ok (s.colls "announcement") := by
    simp [get_documents, hav, hg]
  refine ⟨{ items := (s.colls "announcement").filterMap (fun rr =>
              if Value.truthy ((docGet rr "active").getD (Value.bool true)) then
                some (docPop rr "_id")
              else none),
            fallback := false, error := none }, s, ?_, rfl, ?_⟩
  · simp [list_announcements, ensure_announcements_seeded, hens, hget]
  · exact List.mem_filterMap.mpr ⟨r, hr, by simp [hactive, Value.truthy]⟩

theorem missing_active_included_witness :
    annStoreNoActive.available = true ∧ docGet noActiveDoc "active" = none ∧
      (∃ resp s1, list_announcements annStoreNoActive = .ok (resp, s1) ∧
        resp.fallback = false ∧ docPop noActiveDoc "_id" ∈ resp.items) :=
  ⟨rfl, rfl,
   missing_active_included annStoreNoActive noActiveDoc rfl rfl (by decide) rfl⟩

end Pictiv
